import Mathlib

/-!
Verification development for the medical-diary security core
(`src/core/security_system.py`, `src/core/security/`).

The Python modules are shallowly embedded: every class becomes a structure,
every method a pure Lean function, and mutation becomes explicit state
passing.  Byte strings are `List Nat`, `datetime` values are `Nat` ticks,
and Python dictionaries are association lists.  Calls into the external
`cryptography` package (PBKDF2, AES-GCM) and into `json`/`hashlib`/UTF-8
codecs are modelled by a `CryptoPrims` parameter carrying the two laws the
library guarantees (AEAD round-trip, UTF-8 round-trip); every repository
function is translated line by line from the source.
-/

namespace MedDiary

/-- Python `bytes` values. -/
abbrev Bytes := List Nat

/-- Lookup in an association list, modelling Python `dict.get`. -/
def alGet {α β : Type} [DecidableEq α] : List (α × β) → α → Option β
  | [], _ => none
  | (k, v) :: rest, k' => if k = k' then some v else alGet rest k'

/-- Update / insert in an association list, modelling Python `dict[k] = v`. -/
def alSet {α β : Type} [DecidableEq α] : List (α × β) → α → β → List (α × β)
  | [], k, v => [(k, v)]
  | (k0, v0) :: rest, k, v =>
      if k0 = k then (k, v) :: rest else (k0, v0) :: alSet rest k v

/-- Delete a key from an association list, modelling Python `del d[k]`. -/
def alDel {α β : Type} [DecidableEq α] : List (α × β) → α → List (α × β)
  | [], _ => []
  | (k0, v0) :: rest, k =>
      if k0 = k then rest else (k0, v0) :: alDel rest k

/-- The Python exception taxonomy that the embedded code can raise.
`types.py` defines the `CryptoError` family; `valueError` models the
built-in `ValueError` and `nameError` the built-in `NameError` raised when
an identifier is not defined in the module namespace. -/
inductive PyErr : Type where
  | valueError (msg : String)
  | cryptoError (msg : String)
  | keyNotFoundError (msg : String)
  | encryptionError (msg : String)
  | decryptionError (msg : String)
  | accessDeniedError (msg : String)
  | keyRotationError (msg : String)
  | nameError (msg : String)
  deriving Repr, DecidableEq

/-- Message carried by an exception (Python `str(e)`). -/
def PyErr.msg : PyErr → String
  | .valueError m => m
  | .cryptoError m => m
  | .keyNotFoundError m => m
  | .encryptionError m => m
  | .decryptionError m => m
  | .accessDeniedError m => m
  | .keyRotationError m => m
  | .nameError m => m

def PyErr.isCryptoError : PyErr → Bool
  | .cryptoError _ => true
  | _ => false

def PyErr.isDecryptionError : PyErr → Bool
  | .decryptionError _ => true
  | _ => false

def PyErr.isAccessDeniedError : PyErr → Bool
  | .accessDeniedError _ => true
  | _ => false

def PyErr.isNameError : PyErr → Bool
  | .nameError _ => true
  | _ => false

/-- `types.MasterKey` (timestamps dropped to `Nat` ticks; the `created_at`
field is never read by the embedded operations and is omitted). -/
structure MasterKey : Type where
  key_bytes : Bytes
  salt : Bytes
  algorithm : String := "PBKDF2-HMAC-SHA256"
  iterations : Nat := 600000
  deriving Repr, DecidableEq

/-- `types.DataKey`. -/
structure DataKey : Type where
  key_id : String
  key_bytes : Bytes
  salt : Bytes
  algorithm : String := "AES-256-GCM"
  created_at : Nat := 0
  last_rotated : Option Nat := none
  deriving Repr, DecidableEq

/-- `DataKey.mark_rotated` (sets `last_rotated` to the current time). -/
def DataKey.mark_rotated (k : DataKey) (now : Nat) : DataKey :=
  { k with last_rotated := some now }

/-- `types.EncryptedData`. -/
structure EncryptedData : Type where
  ciphertext : Bytes
  nonce : Bytes
  additional_data : Bytes
  version : String := "1.0"
  algorithm : String := "AES-256-GCM"
  key_id : Option String := none
  deriving Repr, DecidableEq

/-- `types.AccessSession` (times are `Nat` ticks in seconds). -/
structure AccessSession : Type where
  session_id : String
  doctor_id : Nat
  patient_id : Nat
  encrypted_session_key : Bytes
  access_type : String
  permissions : List (String × Bool)
  created_at : Nat
  expires_at : Nat
  last_used : Option Nat := none
  is_active : Bool := true
  deriving Repr, DecidableEq

/-- `AccessSession.is_expired`: `datetime.now() > self.expires_at`. -/
def AccessSession.is_expired (s : AccessSession) (now : Nat) : Bool :=
  now > s.expires_at

/-- One entry of `MemoryAccessManager._access_logs` (an audit event). -/
structure LogEntry : Type where
  timestamp : Nat
  doctor_id : Nat
  patient_id : Nat
  action : String
  record_type : Option String
  success : Bool
  deriving Repr, DecidableEq

/-- `types.SecurityConfig` (the fields the embedded code reads). -/
structure SecurityConfig : Type where
  default_algorithm : String := "AES-256-GCM"
  key_rotation_days : Nat := 90
  session_expiry_hours : Nat := 8
  pbkdf2_iterations : Nat := 600000
  pbkdf2_key_length : Nat := 32
  audit_retention_days : Nat := 365
  deriving Repr, DecidableEq

/-- Dataclass construction of `SecurityConfig` followed by
`__post_init__`, which clamps `pbkdf2_iterations` below 100000 up to
100000 and `pbkdf2_key_length` below 32 up to 32. -/
def SecurityConfig.init (iterations keyLength : Nat) : SecurityConfig :=
  { pbkdf2_iterations := if iterations < 100000 then 100000 else iterations
    pbkdf2_key_length := if keyLength < 32 then 32 else keyLength }

/-- The external primitives used by the security core: PBKDF2 from
`cryptography.hazmat...pbkdf2`, AES-GCM from `cryptography.hazmat...aead`,
the UTF-8 codec, and the `json`+`hashlib` serialization behind
`AESCryptoProvider._generate_default_aad`.  `aeadEnc key nonce plaintext
aad` returns ciphertext-plus-tag; `aeadDec` returns `none` exactly when
authentication fails.  The two laws are the library's documented
guarantees. -/
structure CryptoPrims : Type where
  kdf : String → Bytes → Nat → Nat → Bytes
  aeadEnc : Bytes → Bytes → Bytes → Bytes → Bytes
  aeadDec : Bytes → Bytes → Bytes → Bytes → Option Bytes
  utf8Encode : String → Bytes
  utf8Decode : Bytes → Option String
  defaultAad : DataKey → Bytes
  aead_roundtrip : ∀ k n p a, aeadDec k n (aeadEnc k n p a) a = some p
  utf8_roundtrip : ∀ s, utf8Decode (utf8Encode s) = some s

/-- `EncryptedData.to_json` / `EncryptedData.from_json` (`types.py`) go
through Python's `json` and `base64` libraries; they are modelled as an
abstract codec into a serialized type `J` with the round-trip law those
functions provide. -/
structure BlobCodec (J : Type) : Type where
  toJson : EncryptedData → J
  fromJson : J → Option EncryptedData
  roundtrip : ∀ b, fromJson (toJson b) = some b

/-- Configuration state of `providers/aes_gcm.AESCryptoProvider`. -/
structure AESCryptoProvider : Type where
  nonce_length : Nat := 12
  algorithm_version : String := "1.0"
  deriving Repr, DecidableEq

namespace AESCryptoProvider

/-- `AESCryptoProvider.encrypt`.  The fresh random nonce
(`secrets.token_bytes`) is passed explicitly.  Note the Python
`additional_data or self._generate_default_aad(data_key)`: an absent OR
empty AAD falls back to the default AAD. -/
def encrypt (P : CryptoPrims) (prov : AESCryptoProvider) (plaintext : String)
    (data_key : DataKey) (additional_data : Option Bytes) (nonce : Bytes) :
    Except PyErr EncryptedData :=
  if plaintext = "" then
    .error (.encryptionError "empty plaintext")
  else if data_key.key_bytes.length ≠ 32 then
    .error (.encryptionError "bad key length")
  else
    let aad :=
      match additional_data with
      | some a => if a = [] then P.defaultAad data_key else a
      | none => P.defaultAad data_key
    let ciphertext := P.aeadEnc data_key.key_bytes nonce (P.utf8Encode plaintext) aad
    .ok { ciphertext := ciphertext
          nonce := nonce
          additional_data := aad
          version := prov.algorithm_version
          algorithm := "AES-256-GCM"
          key_id := some data_key.key_id }

/-- Python truthiness of `encrypted_data.key_id` (an `Optional[str]`):
false for `None` and for the empty string. -/
def keyIdTruthy : Option String → Bool
  | none => false
  | some s => s ≠ ""

/-- `AESCryptoProvider.decrypt`. -/
def decrypt (P : CryptoPrims) (encrypted_data : EncryptedData)
    (data_key : DataKey) : Except PyErr String :=
  if keyIdTruthy encrypted_data.key_id ∧
      encrypted_data.key_id ≠ some data_key.key_id then
    .error (.decryptionError "key id mismatch")
  else if data_key.key_bytes.length ≠ 32 then
    .error (.decryptionError "bad key length")
  else
    match P.aeadDec data_key.key_bytes encrypted_data.nonce
        encrypted_data.ciphertext encrypted_data.additional_data with
    | none => .error (.decryptionError "authentication failed")
    | some plaintext_bytes =>
      match P.utf8Decode plaintext_bytes with
      | none => .error (.decryptionError "invalid utf-8")
      | some s => .ok s

end AESCryptoProvider

/-- State of `key_managers/default.DefaultKeyManager`: PBKDF2 parameters
read from the config dict, the data-key cache `_key_cache :
Dict[int, DataKey]` keyed by patient id, and the rotation history
`_key_history : Dict[int, Dict[str, DataKey]]`. -/
structure DefaultKeyManager : Type where
  pbkdf2_iterations : Nat
  pbkdf2_key_length : Nat
  hkdf_key_length : Nat
  key_cache : List (Nat × DataKey)
  key_history : List (Nat × List (String × DataKey))
  deriving Repr, DecidableEq

namespace DefaultKeyManager

/-- `DefaultKeyManager.__init__(config)`: `config.get` with defaults
600000 / 32 / 32 and empty cache and history.  No clamping happens here. -/
def init (cfgIterations cfgKeyLength : Option Nat) : DefaultKeyManager :=
  { pbkdf2_iterations := cfgIterations.getD 600000
    pbkdf2_key_length := cfgKeyLength.getD 32
    hkdf_key_length := 32
    key_cache := []
    key_history := [] }

/-- `DefaultKeyManager.derive_master_key`.  The fresh salt drawn by
`secrets.token_bytes(32)` when `salt is None` is passed explicitly. -/
def derive_master_key (P : CryptoPrims) (km : DefaultKeyManager)
    (password : String) (salt : Option Bytes) (freshSalt : Bytes) :
    Except PyErr MasterKey :=
  if password = "" then
    .error (.valueError "empty password")
  else
    let salt := salt.getD freshSalt
    .ok { key_bytes := P.kdf password salt km.pbkdf2_key_length km.pbkdf2_iterations
          salt := salt
          algorithm := "PBKDF2-HMAC-SHA256"
          iterations := km.pbkdf2_iterations }

/-- `DefaultKeyManager._generate_key_id`. -/
def generateKeyId (patient_id timestamp : Nat) (randomPart : String) : String :=
  "key_" ++ toString patient_id ++ "_" ++ toString timestamp ++ "_" ++ randomPart

/-- `DefaultKeyManager.generate_data_key`.  The random key bytes, random
salt, timestamp and random id part are passed explicitly.  The new key is
stored in the patient-id-keyed cache and appended to the history. -/
def generate_data_key (km : DefaultKeyManager) (patient_id : Nat)
    (freshKeyBytes freshSalt : Bytes) (timestamp : Nat) (randomPart : String) :
    DataKey × DefaultKeyManager :=
  let key_id := generateKeyId patient_id timestamp randomPart
  let key : DataKey :=
    { key_id := key_id
      key_bytes := freshKeyBytes
      salt := freshSalt
      algorithm := "AES-256-GCM"
      created_at := timestamp }
  let cache := alSet km.key_cache patient_id key
  let hist := (alGet km.key_history patient_id).getD []
  let history := alSet km.key_history patient_id (alSet hist key_id key)
  (key, { km with key_cache := cache, key_history := history })

/-- `DefaultKeyManager.encrypt_data_key` (wrap): AES-GCM under the master
key, no AAD, plaintext `key_bytes ++ salt ++ key_id_utf8`, output
`nonce ++ ciphertext`. -/
def encrypt_data_key (P : CryptoPrims) (data_key : DataKey)
    (master_key : MasterKey) (nonce : Bytes) : Bytes :=
  let plaintext := data_key.key_bytes ++ data_key.salt ++ P.utf8Encode data_key.key_id
  nonce ++ P.aeadEnc master_key.key_bytes nonce plaintext []

/-- `DefaultKeyManager.decrypt_data_key` (unwrap).  The module imports
only `MasterKey, DataKey, CryptoError, KeyRotationError` from
`..types`; the name `DecryptionError` is NOT defined in
`key_managers/default.py`, so every `raise DecryptionError(...)` in this
method — including the one in the `except Exception` handler — actually
raises `NameError`.  Each failure path therefore yields `nameError`. -/
def decrypt_data_key (P : CryptoPrims) (encrypted_key : Bytes)
    (master_key : MasterKey) : Except PyErr DataKey :=
  let nonce := encrypted_key.take 12
  let ciphertext := encrypted_key.drop 12
  match P.aeadDec master_key.key_bytes nonce ciphertext [] with
  | none =>
    -- `aesgcm.decrypt` raised `InvalidTag`; the handler evaluates
    -- `DecryptionError(...)` and hits the missing name.
    .error (.nameError "name DecryptionError is not defined")
  | some plaintext =>
    let key_bytes := plaintext.take 32
    let salt := (plaintext.drop 32).take 32
    match P.utf8Decode (plaintext.drop 64) with
    | none =>
      -- `.decode(utf-8)` raised; same missing-name handler.
      .error (.nameError "name DecryptionError is not defined")
    | some key_id =>
      if key_bytes.length ≠ 32 then
        .error (.nameError "name DecryptionError is not defined")
      else if salt.length ≠ 32 then
        .error (.nameError "name DecryptionError is not defined")
      else
        .ok { key_id := key_id
              key_bytes := key_bytes
              salt := salt
              algorithm := "AES-256-GCM" }

/-- `DefaultKeyManager.get_key_for_patient`: a pure cache lookup keyed by
`patient_id`; the `master_key` argument is not used. -/
def get_key_for_patient (km : DefaultKeyManager) (patient_id : Nat)
    (_master_key : MasterKey) : Option DataKey :=
  alGet km.key_cache patient_id

/-- `DefaultKeyManager.get_key_history`. -/
def get_key_history (km : DefaultKeyManager) (patient_id : Nat) :
    List (String × DataKey) :=
  (alGet km.key_history patient_id).getD []

/-- `DefaultKeyManager.rotate_data_key`.  Marks the current key rotated
(the Python object is aliased by the cache and the history, so both views
change), generates a successor and re-caches it. -/
def rotate_data_key (km : DefaultKeyManager) (patient_id : Nat)
    (master_key : MasterKey) (freshKeyBytes freshSalt : Bytes)
    (timestamp : Nat) (randomPart : String) (now : Nat) :
    Except PyErr (DataKey × DefaultKeyManager) :=
  match get_key_for_patient km patient_id master_key with
  | none => .error (.keyRotationError "no current key")
  | some current_key =>
    let marked := current_key.mark_rotated now
    let hist := (alGet km.key_history patient_id).getD []
    let km1 : DefaultKeyManager :=
      { km with
        key_cache := alSet km.key_cache patient_id marked
        key_history := alSet km.key_history patient_id
          (if (alGet hist current_key.key_id).isSome then
            alSet hist current_key.key_id marked
          else hist) }
    let (new_key, km2) :=
      generate_data_key km1 patient_id freshKeyBytes freshSalt timestamp randomPart
    -- `self._key_cache[patient_id] = new_key` (already done by generate)
    .ok (new_key, { km2 with key_cache := alSet km2.key_cache patient_id new_key })

/-- `DefaultKeyManager.verify_password`: re-derive with the master key's
salt and compare the secrets (`hmac.compare_digest`). -/
def verify_password (P : CryptoPrims) (km : DefaultKeyManager)
    (password : String) (master_key : MasterKey) : Bool :=
  match derive_master_key P km password (some master_key.salt) [] with
  | .error _ => false
  | .ok test_key => test_key.key_bytes == master_key.key_bytes

/-- `DefaultKeyManager.clear_cache`. -/
def clear_cache (km : DefaultKeyManager) : DefaultKeyManager :=
  { km with key_cache := [] }

end DefaultKeyManager

/-- State of `access/memory.MemoryAccessManager`: the session store
`_sessions : Dict[str, AccessSession]` and the audit log
`_access_logs : List[Dict]`. -/
structure MemoryAccessManager : Type where
  sessions : List (String × AccessSession)
  access_logs : List LogEntry
  default_session_hours : Nat
  max_log_entries : Nat
  deriving Repr, DecidableEq

namespace MemoryAccessManager

/-- `MemoryAccessManager.__init__(config)`. -/
def init (cfgSessionHours cfgMaxLog : Option Nat) : MemoryAccessManager :=
  { sessions := []
    access_logs := []
    default_session_hours := cfgSessionHours.getD 8
    max_log_entries := cfgMaxLog.getD 10000 }

/-- `MemoryAccessManager.log_access`: append an audit event; when the log
exceeds `max_log_entries` keep only the newest `max_log_entries`
(`self._access_logs[-self.max_log_entries:]`). -/
def log_access (am : MemoryAccessManager) (doctor_id patient_id : Nat)
    (action : String) (record_type : Option String) (success : Bool)
    (now : Nat) : MemoryAccessManager :=
  let entry : LogEntry :=
    { timestamp := now
      doctor_id := doctor_id
      patient_id := patient_id
      action := action
      record_type := record_type
      success := success }
  let logs := am.access_logs ++ [entry]
  { am with
    access_logs :=
      if logs.length > am.max_log_entries then
        logs.drop (logs.length - am.max_log_entries)
      else logs }

/-- `MemoryAccessManager._get_default_permissions`. -/
def getDefaultPermissions (access_type : String) : List (String × Bool) :=
  if access_type = "view" then
    [("view_patient_info", true), ("view_medical_records", true),
     ("view_measurements", true), ("view_prescriptions", true),
     ("edit_records", false), ("create_records", false),
     ("delete_records", false), ("export_data", false)]
  else if access_type = "edit" then
    [("view_patient_info", true), ("view_medical_records", true),
     ("view_measurements", true), ("view_prescriptions", true),
     ("edit_records", true), ("create_records", true),
     ("delete_records", false), ("export_data", true)]
  else if access_type = "emergency" then
    [("view_patient_info", true), ("view_medical_records", true),
     ("view_measurements", true), ("view_prescriptions", true),
     ("edit_records", true), ("create_records", true),
     ("delete_records", true), ("export_data", true),
     ("emergency_access", true)]
  else []

/-- `MemoryAccessManager.create_session`.  The random id suffix and the
random session key are passed explicitly; `expires_at` is
`now + duration_hours` converted to seconds. -/
def create_session (am : MemoryAccessManager) (doctor_id patient_id : Nat)
    (access_type : String) (permissions : Option (List (String × Bool)))
    (duration_hours : Nat) (randomHex : String) (freshKey : Bytes)
    (now : Nat) : AccessSession × MemoryAccessManager :=
  let session_id :=
    "session_" ++ toString doctor_id ++ "_" ++ toString patient_id ++ "_" ++ randomHex
  let perms := permissions.getD (getDefaultPermissions access_type)
  let session : AccessSession :=
    { session_id := session_id
      doctor_id := doctor_id
      patient_id := patient_id
      encrypted_session_key := freshKey
      access_type := access_type
      permissions := perms
      created_at := now
      expires_at := now + duration_hours * 3600 }
  let am1 := { am with sessions := alSet am.sessions session_id session }
  let am2 := log_access am1 doctor_id patient_id "create_session" none true now
  (session, am2)

/-- `MemoryAccessManager.get_session`: returns the stored session,
refreshing `last_used` when it is active. -/
def get_session (am : MemoryAccessManager) (session_id : String) (now : Nat) :
    Option AccessSession × MemoryAccessManager :=
  match alGet am.sessions session_id with
  | none => (none, am)
  | some s =>
    if s.is_active then
      let s2 := { s with last_used := some now }
      (some s2, { am with sessions := alSet am.sessions session_id s2 })
    else (some s, am)

/-- `MemoryAccessManager.revoke_session`: deactivate an active session and
log a `revoke_session` event; returns false (logging nothing) when the
session is absent or already inactive. -/
def revoke_session (am : MemoryAccessManager) (session_id : String)
    (now : Nat) : Bool × MemoryAccessManager :=
  match alGet am.sessions session_id with
  | none => (false, am)
  | some s =>
    if ¬s.is_active then (false, am)
    else
      let s2 := { s with is_active := false }
      let am1 := { am with sessions := alSet am.sessions session_id s2 }
      (true, log_access am1 s.doctor_id s.patient_id "revoke_session" none true now)

/-- `MemoryAccessManager.validate_session`: true iff the session exists,
is active and is not expired; detecting expiry revokes the session as a
side effect. -/
def validate_session (am : MemoryAccessManager) (session_id : String)
    (now : Nat) : Bool × MemoryAccessManager :=
  let (so, am1) := get_session am session_id now
  match so with
  | none => (false, am1)
  | some s =>
    if ¬s.is_active then (false, am1)
    else if s.is_expired now then
      let (_, am2) := revoke_session am1 session_id now
      (false, am2)
    else (true, am1)

/-- One iteration of the `revoke_all_sessions` loop: for a session entry
matching the doctor (and, when given, the patient) that the snapshot
shows active, call `revoke_session` and count it when the revocation
reports success. -/
def revokeAllStep (doctor_id : Nat) (patient_id : Option Nat) (now : Nat)
    (acc : Nat × MemoryAccessManager) (pair : String × AccessSession) :
    Nat × MemoryAccessManager :=
  if pair.2.doctor_id = doctor_id ∧ pair.2.is_active ∧
      (patient_id = none ∨ patient_id = some pair.2.patient_id) then
    let r := revoke_session acc.2 pair.1 now
    (acc.1 + (if r.1 then 1 else 0), r.2)
  else acc

/-- `MemoryAccessManager.revoke_all_sessions`: walk the session table, for
each active session of the doctor (optionally restricted to one patient)
call `revoke_session`, then log one `revoke_all_sessions` event.  The loop
reads each session object once, and `revoke_session` only touches the
entry being processed, so folding over the entry list as it stood at loop
entry matches the Python iteration. -/
def revoke_all_sessions (am : MemoryAccessManager) (doctor_id : Nat)
    (patient_id : Option Nat) (now : Nat) : Nat × MemoryAccessManager :=
  let (revoked_count, am1) :=
    am.sessions.foldl (revokeAllStep doctor_id patient_id now) (0, am)
  (revoked_count,
    log_access am1 doctor_id (patient_id.getD 0) "revoke_all_sessions" none true now)

end MemoryAccessManager

/-- State of `security_system.MedicalSecuritySystem`: the three
components plus the master-key cache `_master_keys : Dict[int, MasterKey]`,
the per-doctor patient-key cache
`_patient_keys : Dict[int, Dict[int, DataKey]]`, and the statistics
counters. -/
structure MedicalSecuritySystem : Type where
  config : SecurityConfig
  km : DefaultKeyManager
  prov : AESCryptoProvider
  am : MemoryAccessManager
  master_keys : List (Nat × MasterKey)
  patient_keys : List (Nat × List (Nat × DataKey))
  stats_encryptions : Nat
  stats_decryptions : Nat
  stats_sessions_created : Nat
  stats_errors : Nat
  deriving Repr, DecidableEq

namespace MedicalSecuritySystem

/-- `MedicalSecuritySystem.__init__(config)`: the key manager receives the
(already `__post_init__`-clamped) config values as its config dict. -/
def init (config : SecurityConfig) : MedicalSecuritySystem :=
  { config := config
    km := DefaultKeyManager.init (some config.pbkdf2_iterations)
      (some config.pbkdf2_key_length)
    prov := { nonce_length := 12, algorithm_version := "2.0" }
    am := MemoryAccessManager.init (some config.session_expiry_hours) (some 10000)
    master_keys := []
    patient_keys := []
    stats_encryptions := 0
    stats_decryptions := 0
    stats_sessions_created := 0
    stats_errors := 0 }

/-- `MedicalSecuritySystem.setup_doctor`. -/
def setup_doctor (P : CryptoPrims) (sys : MedicalSecuritySystem)
    (doctor_id : Nat) (password : String) (salt : Option Bytes)
    (freshSalt : Bytes) (now : Nat) :
    Except PyErr MasterKey × MedicalSecuritySystem :=
  match sys.km.derive_master_key P password salt freshSalt with
  | .ok master_key =>
    let sys1 := { sys with master_keys := alSet sys.master_keys doctor_id master_key }
    let am1 := sys1.am.log_access doctor_id 0 "setup_doctor" none true now
    (.ok master_key, { sys1 with am := am1 })
  | .error e =>
    let am1 := sys.am.log_access doctor_id 0 "setup_doctor" none false now
    (.error (.cryptoError ("doctor setup failed: " ++ e.msg)),
      { sys with am := am1, stats_errors := sys.stats_errors + 1 })

/-- `MedicalSecuritySystem.login_doctor`: derive the master key from the
supplied password and salt, check it with `verify_password`, cache it and
log on success; any exception is swallowed into `False`. -/
def login_doctor (P : CryptoPrims) (sys : MedicalSecuritySystem)
    (doctor_id : Nat) (password : String) (doctor_salt : Bytes) (now : Nat) :
    Bool × MedicalSecuritySystem :=
  match sys.km.derive_master_key P password (some doctor_salt) [] with
  | .error _ =>
    let am1 := sys.am.log_access doctor_id 0 "login" none false now
    (false, { sys with am := am1, stats_errors := sys.stats_errors + 1 })
  | .ok master_key =>
    if sys.km.verify_password P password master_key then
      let sys1 := { sys with master_keys := alSet sys.master_keys doctor_id master_key }
      let am1 := sys1.am.log_access doctor_id 0 "login" none true now
      (true, { sys1 with am := am1 })
    else
      let am1 := sys.am.log_access doctor_id 0 "login" none false now
      (false, { sys with am := am1 })

/-- `MedicalSecuritySystem.logout_doctor`: for a cached doctor, drop the
master key, revoke all of the doctor's sessions, drop the patient-key
cache, and log a `logout` event; otherwise return `False` without
logging. -/
def logout_doctor (sys : MedicalSecuritySystem) (doctor_id : Nat)
    (now : Nat) : Bool × MedicalSecuritySystem :=
  if (alGet sys.master_keys doctor_id).isSome then
    let sys1 := { sys with master_keys := alDel sys.master_keys doctor_id }
    let (_, am1) := sys1.am.revoke_all_sessions doctor_id none now
    let sys2 := { sys1 with am := am1, patient_keys := alDel sys1.patient_keys doctor_id }
    let am2 := sys2.am.log_access doctor_id 0 "logout" none true now
    (true, { sys2 with am := am2 })
  else (false, sys)

/-- `MedicalSecuritySystem.get_doctor_master_key`. -/
def get_doctor_master_key (sys : MedicalSecuritySystem) (doctor_id : Nat) :
    Option MasterKey :=
  alGet sys.master_keys doctor_id

/-- `MedicalSecuritySystem.setup_patient`: requires a cached master key
(raising `CryptoError` before the `try` block, hence without logging),
generates a data key and caches it under `(doctor_id, patient_id)`. -/
def setup_patient (sys : MedicalSecuritySystem) (doctor_id patient_id : Nat)
    (freshKeyBytes freshSalt : Bytes) (timestamp : Nat) (randomPart : String)
    (now : Nat) : Except PyErr DataKey × MedicalSecuritySystem :=
  match get_doctor_master_key sys doctor_id with
  | none => (.error (.cryptoError "doctor not authenticated"), sys)
  | some _ =>
    let (data_key, km1) :=
      sys.km.generate_data_key patient_id freshKeyBytes freshSalt timestamp randomPart
    let doctorMap := (alGet sys.patient_keys doctor_id).getD []
    let pk := alSet sys.patient_keys doctor_id (alSet doctorMap patient_id data_key)
    let sys1 := { sys with km := km1, patient_keys := pk }
    let am1 := sys1.am.log_access doctor_id patient_id "setup_patient" none true now
    (.ok data_key, { sys1 with am := am1 })

/-- `MedicalSecuritySystem.get_patient_key`: cache lookup under
`(doctor_id, patient_id)`. -/
def get_patient_key (sys : MedicalSecuritySystem) (doctor_id patient_id : Nat) :
    Option DataKey :=
  match alGet sys.patient_keys doctor_id with
  | some m => alGet m patient_id
  | none => none

/-- `MedicalSecuritySystem.rotate_patient_key`. -/
def rotate_patient_key (sys : MedicalSecuritySystem) (doctor_id patient_id : Nat)
    (freshKeyBytes freshSalt : Bytes) (timestamp : Nat) (randomPart : String)
    (now : Nat) : Except PyErr DataKey × MedicalSecuritySystem :=
  match get_doctor_master_key sys doctor_id with
  | none => (.error (.cryptoError "doctor not authenticated"), sys)
  | some master_key =>
    match sys.km.rotate_data_key patient_id master_key freshKeyBytes freshSalt
        timestamp randomPart now with
    | .error e =>
      let am1 := sys.am.log_access doctor_id patient_id "rotate_key" none false now
      (.error (.cryptoError ("key rotation failed: " ++ e.msg)),
        { sys with am := am1, stats_errors := sys.stats_errors + 1 })
    | .ok (new_key, km1) =>
      let doctorMap := (alGet sys.patient_keys doctor_id).getD []
      let pk := alSet sys.patient_keys doctor_id (alSet doctorMap patient_id new_key)
      let sys1 := { sys with km := km1, patient_keys := pk }
      let am1 := sys1.am.log_access doctor_id patient_id "rotate_key" none true now
      (.ok new_key, { sys1 with am := am1 })

/-- `MedicalSecuritySystem._check_doctor_access`: the source is a stub
that unconditionally returns `True` (marked TODO). -/
def check_doctor_access (_sys : MedicalSecuritySystem)
    (_doctor_id _patient_id : Nat) : Bool :=
  true

/-- `MedicalSecuritySystem.encrypt_patient_data`: resolve (or lazily set
up) the patient key, encrypt, bump statistics, log, and return the blob
serialized by `EncryptedData.to_json`.  `additional_data` is the UTF-8
JSON of the caller's dict (`none` when the dict is absent or falsy). -/
def encrypt_patient_data {J : Type} (P : CryptoPrims) (codec : BlobCodec J)
    (sys : MedicalSecuritySystem) (doctor_id patient_id : Nat)
    (plaintext : String) (additional_data : Option Bytes) (nonce : Bytes)
    (freshKeyBytes freshSalt : Bytes) (timestamp : Nat) (randomPart : String)
    (now : Nat) : Except PyErr J × MedicalSecuritySystem :=
  let resolved : Except PyErr DataKey × MedicalSecuritySystem :=
    match get_patient_key sys doctor_id patient_id with
    | some data_key => (.ok data_key, sys)
    | none =>
      setup_patient sys doctor_id patient_id freshKeyBytes freshSalt timestamp
        randomPart now
  match resolved with
  | (.error e, sys1) => (.error e, sys1)
  | (.ok data_key, sys1) =>
    match sys1.prov.encrypt P plaintext data_key additional_data nonce with
    | .ok encrypted =>
      let sys2 := { sys1 with stats_encryptions := sys1.stats_encryptions + 1 }
      let am1 := sys2.am.log_access doctor_id patient_id "encrypt_data" none true now
      (.ok (codec.toJson encrypted), { sys2 with am := am1 })
    | .error e =>
      let sys2 := { sys1 with stats_errors := sys1.stats_errors + 1 }
      let am1 := sys2.am.log_access doctor_id patient_id "encrypt_data" none false now
      (.error (.cryptoError ("encrypt failed: " ++ e.msg)), { sys2 with am := am1 })

/-- `MedicalSecuritySystem.decrypt_patient_data`: access check (the stub),
cache lookup of the current patient key (raising `CryptoError` without
logging when absent), then deserialize and decrypt with that single key. -/
def decrypt_patient_data {J : Type} (P : CryptoPrims) (codec : BlobCodec J)
    (sys : MedicalSecuritySystem) (doctor_id patient_id : Nat)
    (encrypted_json : J) (now : Nat) :
    Except PyErr String × MedicalSecuritySystem :=
  if ¬check_doctor_access sys doctor_id patient_id then
    (.error (.accessDeniedError "no access to patient"), sys)
  else
    match get_patient_key sys doctor_id patient_id with
    | none => (.error (.cryptoError "patient key not found"), sys)
    | some data_key =>
      match codec.fromJson encrypted_json with
      | none =>
        let sys1 := { sys with stats_errors := sys.stats_errors + 1 }
        let am1 := sys1.am.log_access doctor_id patient_id "decrypt_data" none false now
        (.error (.cryptoError "decrypt failed: malformed blob"), { sys1 with am := am1 })
      | some encrypted_data =>
        match AESCryptoProvider.decrypt P encrypted_data data_key with
        | .ok plaintext =>
          let sys1 := { sys with stats_decryptions := sys.stats_decryptions + 1 }
          let am1 := sys1.am.log_access doctor_id patient_id "decrypt_data" none true now
          (.ok plaintext, { sys1 with am := am1 })
        | .error e =>
          let sys1 := { sys with stats_errors := sys.stats_errors + 1 }
          let am1 := sys1.am.log_access doctor_id patient_id "decrypt_data" none false now
          (.error (.cryptoError ("decrypt failed: " ++ e.msg)), { sys1 with am := am1 })

/-- `MedicalSecuritySystem.create_access_session`. -/
def create_access_session (sys : MedicalSecuritySystem)
    (doctor_id patient_id : Nat) (access_type : String) (duration_hours : Nat)
    (randomHex : String) (freshKey : Bytes) (now : Nat) :
    AccessSession × MedicalSecuritySystem :=
  let (session, am1) := sys.am.create_session doctor_id patient_id access_type
    none duration_hours randomHex freshKey now
  (session,
    { sys with
      am := am1
      stats_sessions_created := sys.stats_sessions_created + 1 })

/-- `MedicalSecuritySystem.validate_access_session`. -/
def validate_access_session (sys : MedicalSecuritySystem)
    (session_id : String) (now : Nat) : Bool × MedicalSecuritySystem :=
  let (b, am1) := sys.am.validate_session session_id now
  (b, { sys with am := am1 })

/-- `MedicalSecuritySystem.revoke_session`. -/
def revoke_session (sys : MedicalSecuritySystem) (session_id : String)
    (now : Nat) : Bool × MedicalSecuritySystem :=
  let (b, am1) := sys.am.revoke_session session_id now
  (b, { sys with am := am1 })

end MedicalSecuritySystem

/-! ### A concrete instantiation of the external primitives

Used to evaluate the development on closed inputs: a tag-based AEAD (the
ciphertext is the key/nonce/AAD fingerprint followed by the plaintext,
and decryption checks the fingerprint), a code-point string codec, and a
deterministic KDF.  Each satisfies the laws the real library guarantees. -/

def toyPrims : CryptoPrims where
  kdf := fun _password salt length iterations => salt ++ [length, iterations]
  aeadEnc := fun k n p a => (k ++ n ++ a) ++ p
  aeadDec := fun k n c a =>
    if c.take (k ++ n ++ a).length = k ++ n ++ a then
      some (c.drop (k ++ n ++ a).length)
    else none
  utf8Encode := fun s => s.data.map Char.toNat
  utf8Decode := fun l => some (String.mk (l.map Char.ofNat))
  defaultAad := fun k => k.salt
  aead_roundtrip := by
    intro k n p a
    have h1 : ((k ++ n ++ a) ++ p).take (k ++ n ++ a).length = k ++ n ++ a :=
      List.take_left _ _
    have h2 : ((k ++ n ++ a) ++ p).drop (k ++ n ++ a).length = p :=
      List.drop_left _ _
    show (if _ = _ then _ else _) = _
    rw [if_pos h1, h2]
  utf8_roundtrip := by
    intro s
    cases s with
    | mk data => simp [List.map_map, Function.comp_def, Char.ofNat_toNat]

/-- The identity blob codec: serialized blobs are the blobs themselves. -/
def idCodec : BlobCodec EncryptedData where
  toJson := id
  fromJson := some
  roundtrip := fun _ => rfl

/-! ### A concrete end-to-end run

The seed scenario of the specification (doctor 1, patient 5), evaluated
with `toyPrims`: doctor setup, patient setup, one encryption, one key
rotation. -/

def scCfg : SecurityConfig := SecurityConfig.init 600000 32

def sc0 : MedicalSecuritySystem := MedicalSecuritySystem.init scCfg

/-- After `setup_doctor(1, "pw", salt)`. -/
def sc1 : MedicalSecuritySystem :=
  (sc0.setup_doctor toyPrims 1 "pw" (some (List.replicate 32 9)) [] 0).2

/-- `setup_patient(1, 5)` with explicit randomness. -/
def scSetup : Except PyErr DataKey × MedicalSecuritySystem :=
  sc1.setup_patient 1 5 (List.replicate 32 2) (List.replicate 32 3) 10 "r1" 10

def sc2 : MedicalSecuritySystem := scSetup.2

/-- `encrypt_patient_data(1, 5, "m")` with explicit nonce. -/
def scEnc : Except PyErr EncryptedData × MedicalSecuritySystem :=
  sc2.encrypt_patient_data toyPrims idCodec 1 5 "m" none (List.replicate 12 4)
    [] [] 0 "x" 20

/-- The blob produced before rotation. -/
def scBlob : EncryptedData :=
  (scEnc.1).toOption.getD { ciphertext := [], nonce := [], additional_data := [] }

def sc3 : MedicalSecuritySystem := scEnc.2

/-- `rotate_patient_key(1, 5)` with explicit randomness. -/
def scRot : Except PyErr DataKey × MedicalSecuritySystem :=
  sc3.rotate_patient_key 1 5 (List.replicate 32 5) (List.replicate 32 6) 30 "r2" 30

def sc4 : MedicalSecuritySystem := scRot.2

/-! ### Helper lemmas -/

theorem alGet_alSet_self {α β : Type} [DecidableEq α]
    (l : List (α × β)) (k : α) (v : β) : alGet (alSet l k v) k = some v := by
  induction l with
  | nil => simp [alGet, alSet]
  | cons hd tl ih =>
    by_cases h : hd.1 = k
    · simp [alSet, alGet, h]
    · simp [alSet, alGet, h, ih]

theorem alGet_alSet_ne {α β : Type} [DecidableEq α]
    (l : List (α × β)) (k k' : α) (v : β) (h : k ≠ k') :
    alGet (alSet l k v) k' = alGet l k' := by
  induction l with
  | nil => simp [alGet, alSet, h]
  | cons hd tl ih =>
    by_cases h0 : hd.1 = k
    · simp [alSet, alGet, h0, h]
    · simp [alSet, alGet, h0, ih]

/-- Below its capacity bound, `log_access` appends exactly one entry. -/
theorem log_access_logs (am : MemoryAccessManager) (d p : Nat) (a : String)
    (rt : Option String) (s : Bool) (now : Nat)
    (h : am.access_logs.length < am.max_log_entries) :
    (am.log_access d p a rt s now).access_logs =
      am.access_logs ++ [⟨now, d, p, a, rt, s⟩] := by
  have hle : ¬am.max_log_entries < am.access_logs.length + 1 := by omega
  simp [MemoryAccessManager.log_access, hle]

theorem log_access_sessions (am : MemoryAccessManager) (d p : Nat) (a : String)
    (rt : Option String) (s : Bool) (now : Nat) :
    (am.log_access d p a rt s now).sessions = am.sessions := rfl

theorem log_access_max (am : MemoryAccessManager) (d p : Nat) (a : String)
    (rt : Option String) (s : Bool) (now : Nat) :
    (am.log_access d p a rt s now).max_log_entries = am.max_log_entries := rfl

/-- In an association list with distinct keys — the shape Python
dictionaries guarantee — every stored pair is what lookup returns. -/
theorem alGet_of_mem_of_nodup {α β : Type} [DecidableEq α]
    (l : List (α × β)) (hnd : (l.map Prod.fst).Nodup) (pr : α × β)
    (hm : pr ∈ l) : alGet l pr.1 = some pr.2 := by
  induction l with
  | nil => cases hm
  | cons hd tl ih =>
    have hnd0 : (hd.1 :: tl.map Prod.fst).Nodup := by simpa using hnd
    rcases List.mem_cons.mp hm with h | h
    · subst h
      simp [alGet]
    · have hne : hd.1 ≠ pr.1 := by
        intro he
        exact (List.nodup_cons.mp hnd0).1 (he ▸ List.mem_map_of_mem Prod.fst h)
      simp only [alGet, if_neg hne]
      exact ih (List.nodup_cons.mp hnd0).2 h

/-- Specification of the `revoke_all_sessions` loop for the whole-doctor
case (`patient_id = None`): starting from a state that agrees with the
snapshot (distinct keys, stored pairs retrievable) and with room in the
audit ring, the fold revokes exactly the doctor's active sessions,
appending one `revoke_session` event per such session, in order, and
leaves the ring capacity unchanged. -/
theorem revokeAllStep_fold_spec (d now : Nat)
    (pending : List (String × AccessSession)) :
    ∀ (c : Nat) (am : MemoryAccessManager),
    (∀ pr ∈ pending, alGet am.sessions pr.1 = some pr.2) →
    (pending.map Prod.fst).Nodup →
    am.access_logs.length +
      (pending.filter (fun pr => pr.2.doctor_id == d && pr.2.is_active)).length ≤
      am.max_log_entries →
    ∃ amF : MemoryAccessManager,
      pending.foldl (MemoryAccessManager.revokeAllStep d none now) (c, am) =
        (c + (pending.filter
          (fun pr => pr.2.doctor_id == d && pr.2.is_active)).length, amF) ∧
      amF.access_logs = am.access_logs ++
        (pending.filter (fun pr => pr.2.doctor_id == d && pr.2.is_active)).map
          (fun pr =>
            (⟨now, pr.2.doctor_id, pr.2.patient_id, "revoke_session", none, true⟩ :
              LogEntry)) ∧
      amF.max_log_entries = am.max_log_entries := by
  induction pending with
  | nil =>
    intro c am hinv hnd hcap
    exact ⟨am, by simp, by simp, rfl⟩
  | cons pr rest ih =>
    intro c am hinv hnd hcap
    have hnd0 : (pr.1 :: rest.map Prod.fst).Nodup := by simpa using hnd
    have hnd' : (rest.map Prod.fst).Nodup := (List.nodup_cons.mp hnd0).2
    have hne : ∀ pr2 ∈ rest, pr.1 ≠ pr2.1 := by
      intro pr2 hm he
      exact (List.nodup_cons.mp hnd0).1 (he ▸ List.mem_map_of_mem Prod.fst hm)
    by_cases hq : pr.2.doctor_id = d ∧ pr.2.is_active = true
    · have hhead : (fun pr : String × AccessSession =>
          pr.2.doctor_id == d && pr.2.is_active) pr = true := by
        simp [hq.1, hq.2]
      have hfc : List.filter
          (fun pr : String × AccessSession =>
            pr.2.doctor_id == d && pr.2.is_active) (pr :: rest) =
          pr :: List.filter
            (fun pr : String × AccessSession =>
              pr.2.doctor_id == d && pr.2.is_active) rest :=
        List.filter_cons_of_pos hhead
      rw [hfc] at hcap
      have hcap1 : am.access_logs.length < am.max_log_entries := by
        simp only [List.length_cons] at hcap
        omega
      have hlook : alGet am.sessions pr.1 = some pr.2 := hinv pr (by simp)
      have hrev : am.revoke_session pr.1 now =
          (true,
            MemoryAccessManager.log_access
              { am with sessions :=
                  (alSet am.sessions pr.1 { pr.2 with is_active := false }) }
              pr.2.doctor_id pr.2.patient_id "revoke_session" none true now) := by
        simp [MemoryAccessManager.revoke_session, hlook, hq.2]
      set am1 := MemoryAccessManager.log_access
        { am with sessions :=
            (alSet am.sessions pr.1 { pr.2 with is_active := false }) }
        pr.2.doctor_id pr.2.patient_id "revoke_session" none true now with ham1
      have ham1_logs : am1.access_logs = am.access_logs ++
          [⟨now, pr.2.doctor_id, pr.2.patient_id, "revoke_session", none, true⟩] :=
        log_access_logs _ _ _ _ _ _ _ hcap1
      have ham1_max : am1.max_log_entries = am.max_log_entries := rfl
      have hstep : MemoryAccessManager.revokeAllStep d none now (c, am) pr =
          (c + 1, am1) := by
        simp [MemoryAccessManager.revokeAllStep, hq.1, hq.2, hrev]
      have hinv' : ∀ pr2 ∈ rest, alGet am1.sessions pr2.1 = some pr2.2 := by
        intro pr2 hm
        have hses : am1.sessions =
            alSet am.sessions pr.1 { pr.2 with is_active := false } := rfl
        rw [hses, alGet_alSet_ne _ _ _ _ (hne pr2 hm)]
        exact hinv pr2 (List.mem_cons_of_mem _ hm)
      have hcap' : am1.access_logs.length +
          (rest.filter (fun pr : String × AccessSession =>
            pr.2.doctor_id == d && pr.2.is_active)).length ≤
          am1.max_log_entries := by
        rw [ham1_logs, ham1_max]
        simp only [List.length_append, List.length_cons, List.length_nil] at hcap ⊢
        omega
      obtain ⟨amF, hfold, hlogs, hmax⟩ := ih (c + 1) am1 hinv' hnd' hcap'
      refine ⟨amF, ?_, ?_, ?_⟩
      · rw [List.foldl_cons, hstep, hfold, hfc]
        have hnum : c + 1 + (rest.filter (fun pr : String × AccessSession =>
            pr.2.doctor_id == d && pr.2.is_active)).length =
            c + ((rest.filter (fun pr : String × AccessSession =>
              pr.2.doctor_id == d && pr.2.is_active)).length + 1) := by omega
        simp only [List.length_cons, hnum]
      · rw [hlogs, ham1_logs, hfc]
        simp
      · rw [hmax, ham1_max]
    · have hhead : (fun pr : String × AccessSession =>
          pr.2.doctor_id == d && pr.2.is_active) pr = false := by
        cases h2 : pr.2.is_active
        · simp [h2]
        · have h1 : pr.2.doctor_id ≠ d := fun h => hq ⟨h, h2⟩
          simp [h1]
      have hfc : List.filter
          (fun pr : String × AccessSession =>
            pr.2.doctor_id == d && pr.2.is_active) (pr :: rest) =
          List.filter
            (fun pr : String × AccessSession =>
              pr.2.doctor_id == d && pr.2.is_active) rest :=
        List.filter_cons_of_neg (by simp [hhead])
      rw [hfc] at hcap
      have hstep : MemoryAccessManager.revokeAllStep d none now (c, am) pr =
          (c, am) := by
        by_cases h1 : pr.2.doctor_id = d
        · have h2 : pr.2.is_active = false := by
            cases h2 : pr.2.is_active
            · rfl
            · exact absurd ⟨h1, h2⟩ hq
          simp [MemoryAccessManager.revokeAllStep, h2]
        · simp [MemoryAccessManager.revokeAllStep, h1]
      obtain ⟨amF, hfold, hlogs, hmax⟩ :=
        ih c am (fun pr2 hm => hinv pr2 (List.mem_cons_of_mem _ hm)) hnd' hcap
      exact ⟨amF, by rw [List.foldl_cons, hstep, hfold, hfc],
        by rw [hlogs, hfc], hmax⟩

/-! ### Claims -/

/-- C1: the claim says a blob encrypted before `rotate_patient_key` still
decrypts afterwards (with the historical key found by the blob's
`key_id`), and post-rotation blobs carry a fresh `key_id`.  On the
concrete seed run the pre-rotation blob does carry the old `key_id` and
decrypts fine before the rotation, the rotation returns a key with a
different `key_id`, but `decrypt_patient_data` afterwards fails with the
key-id-mismatch `CryptoError`: the code only ever uses the current cached
key and never consults the history, contradicting the rotation method's
own documentation. -/
theorem C1_old_blob_undecryptable_after_rotation :
    scBlob.key_id = some "key_5_10_r1" ∧
    (sc3.decrypt_patient_data toyPrims idCodec 1 5 scBlob 25).1 = .ok "m" ∧
    (scRot.1).toOption.map DataKey.key_id = some "key_5_30_r2" ∧
    (sc4.decrypt_patient_data toyPrims idCodec 1 5 scBlob 40).1 =
      .error (.cryptoError "decrypt failed: key id mismatch") :=
  ⟨by decide, by rfl, by decide, by rfl⟩

/-- C3: the claim says `decrypt_patient_data(2, 5, B)` by a non-owning
doctor raises `AccessDeniedError` and logs one failed `decrypt_data`
event.  In the code `_check_doctor_access` is a stub returning `True`,
so the call instead fails on the missing cache entry with a
`CryptoError` raised before the logging block: no audit event at all is
appended. -/
theorem C3_wrong_doctor_cryptoerror_no_audit :
    MedicalSecuritySystem.check_doctor_access sc3 2 5 = true ∧
    (sc3.decrypt_patient_data toyPrims idCodec 2 5 scBlob 40).1 =
      .error (.cryptoError "patient key not found") ∧
    (sc3.decrypt_patient_data toyPrims idCodec 2 5 scBlob 40).2.am.access_logs =
      sc3.am.access_logs :=
  ⟨rfl, by rfl, by decide⟩

/-- C4: the claim says `decrypt_data_key` fails with `DecryptionError`
when authentication fails (and on short or non-UTF-8 plaintexts).  The
module never imports `DecryptionError`, so the raise statements hit a
`NameError` instead: whenever AEAD authentication fails the function
raises `NameError`, which is not a `DecryptionError`. -/
theorem C4_unwrap_auth_failure_raises_nameerror
    (P : CryptoPrims) (w : Bytes) (master_key : MasterKey)
    (h : P.aeadDec master_key.key_bytes (w.take 12) (w.drop 12) [] = none) :
    DefaultKeyManager.decrypt_data_key P w master_key =
      .error (.nameError "name DecryptionError is not defined") ∧
    (PyErr.nameError "name DecryptionError is not defined").isDecryptionError
      = false := by
  constructor
  · simp [DefaultKeyManager.decrypt_data_key, h]
  · rfl

def c4Key : MasterKey := { key_bytes := List.replicate 32 1, salt := [] }

theorem C4_witness :
    DefaultKeyManager.decrypt_data_key toyPrims [] c4Key =
      .error (.nameError "name DecryptionError is not defined") ∧
    (PyErr.nameError "name DecryptionError is not defined").isDecryptionError
      = false :=
  C4_unwrap_auth_failure_raises_nameerror toyPrims [] c4Key (by decide)

/-- C9: the claim says iterations below 100000 are clamped up on both
construction paths.  Only `SecurityConfig.__post_init__` clamps;
`DefaultKeyManager.__init__` takes the config dict value as is, so a key
manager built directly with `pbkdf2_iterations = 1000` derives with 1000
iterations. -/
theorem C9_counterexample_no_clamp_in_key_manager :
    (DefaultKeyManager.init (some 1000) none).pbkdf2_iterations = 1000 ∧
    (1000 : Nat) ≠ 100000 :=
  ⟨rfl, by decide⟩

/-- C9 amended: a configured `pbkdf2_iterations` below 100000 is clamped
to 100000 by `SecurityConfig.__post_init__`, hence also by a security
system built from a `SecurityConfig`; a `DefaultKeyManager` constructed
directly with a config dict keeps the unclamped value. -/
theorem C9_clamp_only_in_security_config (v kl : Nat) (h : v < 100000) :
    (SecurityConfig.init v kl).pbkdf2_iterations = 100000 ∧
    (MedicalSecuritySystem.init (SecurityConfig.init v kl)).km.pbkdf2_iterations
      = 100000 ∧
    (DefaultKeyManager.init (some v) none).pbkdf2_iterations = v := by
  refine ⟨?_, ?_, rfl⟩ <;>
    simp [SecurityConfig.init, MedicalSecuritySystem.init, DefaultKeyManager.init, h]

theorem C9_witness :
    (SecurityConfig.init 1000 32).pbkdf2_iterations = 100000 ∧
    (MedicalSecuritySystem.init (SecurityConfig.init 1000 32)).km.pbkdf2_iterations
      = 100000 ∧
    (DefaultKeyManager.init (some 1000) none).pbkdf2_iterations = 1000 :=
  C9_clamp_only_in_security_config 1000 32 (by decide)

/-- C10: the key manager's data-key cache is keyed by `patient_id` alone:
`get_key_for_patient` ignores its `master_key` argument entirely, and a
`generate_data_key` for a patient replaces the single cached current key
that every caller (any doctor, any master key) sees. -/
theorem C10_cache_keyed_by_patient_only (km : DefaultKeyManager)
    (patient_id : Nat) (mk1 mk2 : MasterKey) (kb salt : Bytes) (ts : Nat)
    (rp : String) :
    km.get_key_for_patient patient_id mk1 = km.get_key_for_patient patient_id mk2 ∧
    ∀ mk3 : MasterKey,
      ((km.generate_data_key patient_id kb salt ts rp).2).get_key_for_patient
          patient_id mk3 =
        some (km.generate_data_key patient_id kb salt ts rp).1 := by
  refine ⟨rfl, fun mk3 => ?_⟩
  simp [DefaultKeyManager.get_key_for_patient, DefaultKeyManager.generate_data_key,
    alGet_alSet_self]

/-- C2: `login_doctor` derives the master key from the supplied password
and salt and then `verify_password` re-derives from the very same pair,
so the comparison always succeeds: every non-empty password logs in and
caches a master key for the doctor, and `False` is returned only when
derivation itself fails (empty password). -/
theorem C2_login_accepts_any_nonempty_password (P : CryptoPrims)
    (sys : MedicalSecuritySystem) (d : Nat) (w : String) (s : Bytes)
    (now : Nat) :
    (w ≠ "" →
      (sys.login_doctor P d w s now).1 = true ∧
      (sys.login_doctor P d w s now).2.get_doctor_master_key d =
        some { key_bytes := P.kdf w s sys.km.pbkdf2_key_length sys.km.pbkdf2_iterations
               salt := s
               iterations := sys.km.pbkdf2_iterations }) ∧
    (w = "" → (sys.login_doctor P d w s now).1 = false) := by
  constructor
  · intro hw
    simp [MedicalSecuritySystem.login_doctor, DefaultKeyManager.derive_master_key,
      DefaultKeyManager.verify_password, MedicalSecuritySystem.get_doctor_master_key,
      hw, alGet_alSet_self]
  · intro hw
    simp [MedicalSecuritySystem.login_doctor, DefaultKeyManager.derive_master_key, hw]

theorem C2_witness :
    (sc0.login_doctor toyPrims 1 "pw" [7] 0).1 = true ∧
    (sc0.login_doctor toyPrims 1 "pw" [7] 0).2.get_doctor_master_key 1 =
      some { key_bytes := toyPrims.kdf "pw" [7] sc0.km.pbkdf2_key_length sc0.km.pbkdf2_iterations
             salt := [7]
             iterations := sc0.km.pbkdf2_iterations } :=
  (C2_login_accepts_any_nonempty_password toyPrims sc0 1 "pw" [7] 0).1 (by decide)

/-- C6: for a non-empty plaintext, a 32-byte data key and any AAD byte
string, `encrypt` succeeds and `decrypt` of the produced blob with the
same key returns the plaintext (the blob stores the AAD that was bound,
including when the caller passed an empty AAD and the default AAD was
substituted). -/
theorem C6_encrypt_decrypt_roundtrip (P : CryptoPrims)
    (prov : AESCryptoProvider) (p : String) (k : DataKey) (a : Bytes)
    (nonce : Bytes) (hp : p ≠ "") (hk : k.key_bytes.length = 32) :
    ∃ b : EncryptedData,
      prov.encrypt P p k (some a) nonce = .ok b ∧
      AESCryptoProvider.decrypt P b k = .ok p := by
  refine ⟨{ ciphertext := P.aeadEnc k.key_bytes nonce (P.utf8Encode p)
              (if a = [] then P.defaultAad k else a)
            nonce := nonce
            additional_data := if a = [] then P.defaultAad k else a
            version := prov.algorithm_version
            algorithm := "AES-256-GCM"
            key_id := some k.key_id }, ?_, ?_⟩
  · by_cases ha : a = [] <;>
      simp [AESCryptoProvider.encrypt, hp, hk, ha]
  · simp [AESCryptoProvider.decrypt, hk, P.aead_roundtrip, P.utf8_roundtrip]

def c6Key : DataKey :=
  { key_id := "K1", key_bytes := List.replicate 32 1, salt := [3] }

theorem C6_witness :
    ∃ b : EncryptedData,
      AESCryptoProvider.encrypt toyPrims {} "hi" c6Key (some [1]) [2] = .ok b ∧
      AESCryptoProvider.decrypt toyPrims b c6Key = .ok "hi" :=
  C6_encrypt_decrypt_roundtrip toyPrims {} "hi" c6Key [1] [2] (by decide) (by decide)

/-- C7: every blob produced by `encrypt` carries the data key's `key_id`,
and `decrypt` of a blob whose (set, non-empty) `key_id` differs from the
supplied key's id fails with the key-id-mismatch `DecryptionError` for
every possible AEAD primitive — i.e. without attempting AEAD
decryption. -/
theorem C7_key_id_binding :
    (∀ (P : CryptoPrims) (prov : AESCryptoProvider) (p : String)
      (k : DataKey) (a : Option Bytes) (n : Bytes) (b : EncryptedData),
      prov.encrypt P p k a n = .ok b → b.key_id = some k.key_id) ∧
    (∀ (P : CryptoPrims) (b : EncryptedData) (k : DataKey) (s : String),
      b.key_id = some s → s ≠ "" → s ≠ k.key_id →
      AESCryptoProvider.decrypt P b k =
        .error (.decryptionError "key id mismatch")) := by
  constructor
  · intro P prov p k a n b h
    simp only [AESCryptoProvider.encrypt] at h
    split at h
    · exact absurd h (by simp)
    · split at h
      · exact absurd h (by simp)
      · cases h
        rfl
  · intro P b k s hs hne hkid
    have hcond : AESCryptoProvider.keyIdTruthy b.key_id ∧ b.key_id ≠ some k.key_id := by
      constructor
      · simp [AESCryptoProvider.keyIdTruthy, hs, hne]
      · rw [hs]
        simp [hkid]
    simp [AESCryptoProvider.decrypt, hcond]

def c7Enc : Except PyErr EncryptedData :=
  AESCryptoProvider.encrypt toyPrims {} "hi" c6Key none [2]

def c7Blob : EncryptedData :=
  c7Enc.toOption.getD { ciphertext := [], nonce := [], additional_data := [] }

def c7Mismatch : EncryptedData :=
  { ciphertext := [], nonce := [], additional_data := [], key_id := some "K2" }

theorem C7_witness :
    c7Blob.key_id = some c6Key.key_id ∧
    AESCryptoProvider.decrypt toyPrims c7Mismatch c6Key =
      .error (.decryptionError "key id mismatch") :=
  ⟨C7_key_id_binding.1 toyPrims {} "hi" c6Key none [2] c7Blob (by rfl),
   C7_key_id_binding.2 toyPrims c7Mismatch c6Key "K2" rfl (by decide) (by decide)⟩

/-- An active session expiring at tick 5, stored under id `s1`. -/
def c8Session : AccessSession :=
  { session_id := "s1", doctor_id := 1, patient_id := 5,
    encrypted_session_key := [], access_type := "view",
    permissions := [("read", true)], created_at := 0, expires_at := 5 }

def c8Am : MemoryAccessManager :=
  { sessions := [("s1", c8Session)], access_logs := [],
    default_session_hours := 8, max_log_entries := 10000 }

/-- C8: the claim says `validate_session` returns true iff
`is_active ∧ t < expires_at`.  `is_expired` uses a strict
`now > expires_at`, so at `t = expires_at` exactly the code still
returns true while the claimed condition is false. -/
theorem C8_counterexample_boundary :
    (c8Am.validate_session "s1" 5).1 = true ∧
    ¬(c8Session.is_active = true ∧ 5 < c8Session.expires_at) := by decide

/-- C8 amended: for a stored session, `validate_session` at time `t`
returns true iff `is_active ∧ t ≤ expires_at` (non-strict at the
boundary); when it detects expiry (`expires_at < t` on an active
session) it flips `is_active` to false, so a subsequent
`revoke_session` returns false. -/
theorem C8_validate_iff_active_not_expired (am : MemoryAccessManager)
    (sid : String) (s : AccessSession) (now : Nat)
    (h : alGet am.sessions sid = some s) :
    ((am.validate_session sid now).1 = true ↔
      (s.is_active = true ∧ now ≤ s.expires_at)) ∧
    (s.is_active = true → s.expires_at < now →
      (alGet (am.validate_session sid now).2.sessions sid).map
        AccessSession.is_active = some false ∧
      ((am.validate_session sid now).2.revoke_session sid now).1 = false) := by
  cases hact : s.is_active with
  | false =>
    constructor
    · simp [MemoryAccessManager.validate_session, MemoryAccessManager.get_session,
        h, hact]
    · intro hc
      simp [hact] at hc
  | true =>
    by_cases hexp : now ≤ s.expires_at
    · have hlive : ¬s.expires_at < now := by omega
      constructor
      · simp [MemoryAccessManager.validate_session, MemoryAccessManager.get_session,
          AccessSession.is_expired, h, hact, hexp, hlive]
      · intro _ hc
        exact absurd hc hlive
    · have hdead : s.expires_at < now := by omega
      have hval : am.validate_session sid now =
          (false,
            MemoryAccessManager.log_access
              { am with sessions :=
                  (alSet (alSet am.sessions sid { s with last_used := some now })
                    sid { s with last_used := some now, is_active := false }) }
              s.doctor_id s.patient_id "revoke_session" none true now) := by
        simp [MemoryAccessManager.validate_session, MemoryAccessManager.get_session,
          MemoryAccessManager.revoke_session, AccessSession.is_expired, h, hact,
          hdead, alGet_alSet_self]
      constructor
      · rw [hval]
        simp [hexp]
      · intro _ _
        rw [hval]
        constructor
        · simp [MemoryAccessManager.log_access, alGet_alSet_self]
        · simp [MemoryAccessManager.revoke_session, MemoryAccessManager.log_access,
            alGet_alSet_self]

theorem C8_witness :
    ((c8Am.validate_session "s1" 3).1 = true ↔
      (c8Session.is_active = true ∧ 3 ≤ c8Session.expires_at)) ∧
    (c8Session.is_active = true → c8Session.expires_at < 3 →
      (alGet (c8Am.validate_session "s1" 3).2.sessions "s1").map
        AccessSession.is_active = some false ∧
      ((c8Am.validate_session "s1" 3).2.revoke_session "s1" 3).1 = false) :=
  C8_validate_iff_active_not_expired c8Am "s1" c8Session 3 (by decide)

/-- C5: the claim says every operation, successful or failed, appends
exactly one audit event.  A successful `logout_doctor` of a doctor with
no sessions already appends two events (`revoke_all_sessions` from the
nested call, then `logout`): on the concrete run the log grows from one
entry to three. -/
theorem C5_counterexample_logout_two_events :
    (sc1.logout_doctor 1 50).1 = true ∧
    sc1.am.access_logs.length = 1 ∧
    ((sc1.logout_doctor 1 50).2.am.access_logs.map LogEntry.action) =
      ["setup_doctor", "revoke_all_sessions", "logout"] ∧
    (sc1.logout_doctor 1 50).2.am.access_logs.length ≠
      sc1.am.access_logs.length + 1 := by decide

/-- C5 amended: below the audit-ring capacity, login (either outcome),
session creation, the first revocation of a session, and — when the
relevant key is cached — encryption, decryption and key rotation each
append exactly one audit event whose success flag matches the outcome;
`logout_doctor` of a cached doctor appends one successful
`revoke_session` event per active session of the doctor it revokes,
then one `revoke_all_sessions` event and one `logout` event (both
successful) — so two events when the doctor has no active sessions; a
logout of an uncached doctor appends none and returns false, and a
repeated revocation of an inactive session appends none and returns
false. -/
theorem C5_audit_event_discipline :
    (∀ (P : CryptoPrims) (sys : MedicalSecuritySystem) (d : Nat) (w : String)
      (s : Bytes) (now : Nat),
      sys.am.access_logs.length < sys.am.max_log_entries →
      ∃ e : LogEntry,
        (sys.login_doctor P d w s now).2.am.access_logs =
          sys.am.access_logs ++ [e] ∧
        e.action = "login" ∧ e.success = (sys.login_doctor P d w s now).1) ∧
    (∀ (sys : MedicalSecuritySystem) (d now : Nat),
      (alGet sys.master_keys d).isSome = true →
      (sys.am.sessions.map Prod.fst).Nodup →
      sys.am.access_logs.length +
        (sys.am.sessions.filter
          (fun pr => pr.2.doctor_id == d && pr.2.is_active)).length + 2 ≤
        sys.am.max_log_entries →
      (sys.logout_doctor d now).1 = true ∧
      (sys.logout_doctor d now).2.am.access_logs = sys.am.access_logs ++
        (sys.am.sessions.filter
          (fun pr => pr.2.doctor_id == d && pr.2.is_active)).map
          (fun pr =>
            (⟨now, pr.2.doctor_id, pr.2.patient_id, "revoke_session", none,
              true⟩ : LogEntry)) ++
        [⟨now, d, 0, "revoke_all_sessions", none, true⟩,
         ⟨now, d, 0, "logout", none, true⟩]) ∧
    (∀ (sys : MedicalSecuritySystem) (d now : Nat),
      alGet sys.master_keys d = none → sys.logout_doctor d now = (false, sys)) ∧
    (∀ (sys : MedicalSecuritySystem) (d p : Nat) (accessType : String)
      (dh : Nat) (rh : String) (fk : Bytes) (now : Nat),
      sys.am.access_logs.length < sys.am.max_log_entries →
      (sys.create_access_session d p accessType dh rh fk now).2.am.access_logs =
        sys.am.access_logs ++ [⟨now, d, p, "create_session", none, true⟩]) ∧
    (∀ (am : MemoryAccessManager) (sid : String) (s : AccessSession) (now : Nat),
      alGet am.sessions sid = some s → s.is_active = true →
      am.access_logs.length < am.max_log_entries →
      (am.revoke_session sid now).1 = true ∧
      (am.revoke_session sid now).2.access_logs = am.access_logs ++
        [⟨now, s.doctor_id, s.patient_id, "revoke_session", none, true⟩]) ∧
    (∀ (am : MemoryAccessManager) (sid : String) (s : AccessSession) (now : Nat),
      alGet am.sessions sid = some s → s.is_active = false →
      am.revoke_session sid now = (false, am)) ∧
    (∀ (P : CryptoPrims) (J : Type) (codec : BlobCodec J)
      (sys : MedicalSecuritySystem) (d p : Nat) (pt : String)
      (ad : Option Bytes) (nonce fkb fs : Bytes) (ts : Nat) (rp : String)
      (now : Nat),
      (sys.get_patient_key d p).isSome = true →
      sys.am.access_logs.length < sys.am.max_log_entries →
      ∃ e : LogEntry,
        (sys.encrypt_patient_data P codec d p pt ad nonce fkb fs ts rp now).2.am.access_logs =
          sys.am.access_logs ++ [e] ∧
        e.action = "encrypt_data" ∧
        e.success =
          (sys.encrypt_patient_data P codec d p pt ad nonce fkb fs ts rp now).1.isOk) ∧
    (∀ (P : CryptoPrims) (J : Type) (codec : BlobCodec J)
      (sys : MedicalSecuritySystem) (d p : Nat) (j : J) (now : Nat),
      (sys.get_patient_key d p).isSome = true →
      sys.am.access_logs.length < sys.am.max_log_entries →
      ∃ e : LogEntry,
        (sys.decrypt_patient_data P codec d p j now).2.am.access_logs =
          sys.am.access_logs ++ [e] ∧
        e.action = "decrypt_data" ∧
        e.success = (sys.decrypt_patient_data P codec d p j now).1.isOk) ∧
    (∀ (sys : MedicalSecuritySystem) (d p : Nat) (fkb fs : Bytes) (ts : Nat)
      (rp : String) (now : Nat),
      (sys.get_doctor_master_key d).isSome = true →
      sys.am.access_logs.length < sys.am.max_log_entries →
      ∃ e : LogEntry,
        (sys.rotate_patient_key d p fkb fs ts rp now).2.am.access_logs =
          sys.am.access_logs ++ [e] ∧
        e.action = "rotate_key" ∧
        e.success = (sys.rotate_patient_key d p fkb fs ts rp now).1.isOk) := by
  refine ⟨?_, ?_, ?_, ?_, ?_, ?_, ?_, ?_, ?_⟩
  · -- login
    intro P sys d w s now hcap
    by_cases hw : w = ""
    · exact ⟨⟨now, d, 0, "login", none, false⟩,
        by simp [MedicalSecuritySystem.login_doctor,
          DefaultKeyManager.derive_master_key, hw, log_access_logs, hcap],
        rfl,
        by simp [MedicalSecuritySystem.login_doctor,
          DefaultKeyManager.derive_master_key, hw]⟩
    · exact ⟨⟨now, d, 0, "login", none, true⟩,
        by simp [MedicalSecuritySystem.login_doctor,
          DefaultKeyManager.derive_master_key, DefaultKeyManager.verify_password,
          hw, log_access_logs, hcap],
        rfl,
        by simp [MedicalSecuritySystem.login_doctor,
          DefaultKeyManager.derive_master_key, DefaultKeyManager.verify_password, hw]⟩
  · -- logout of a cached doctor
    intro sys d now h1 hnd hcap
    obtain ⟨amF, hfold, hlogs, hmax⟩ :=
      revokeAllStep_fold_spec d now sys.am.sessions 0 sys.am
        (fun pr hm => alGet_of_mem_of_nodup sys.am.sessions hnd pr hm) hnd
        (by omega)
    have hra : sys.am.revoke_all_sessions d none now =
        ((sys.am.sessions.filter
          (fun pr => pr.2.doctor_id == d && pr.2.is_active)).length,
          MemoryAccessManager.log_access amF d 0 "revoke_all_sessions" none
            true now) := by
      simp [MemoryAccessManager.revoke_all_sessions, hfold]
    have hlenF : amF.access_logs.length = sys.am.access_logs.length +
        (sys.am.sessions.filter
          (fun pr => pr.2.doctor_id == d && pr.2.is_active)).length := by
      rw [hlogs]
      simp
    have hcapF : amF.access_logs.length < amF.max_log_entries := by
      rw [hlenF, hmax]
      omega
    have hl1 : (MemoryAccessManager.log_access amF d 0 "revoke_all_sessions"
        none true now).access_logs =
        amF.access_logs ++ [⟨now, d, 0, "revoke_all_sessions", none, true⟩] :=
      log_access_logs _ _ _ _ _ _ _ hcapF
    have hc2 : (MemoryAccessManager.log_access amF d 0 "revoke_all_sessions"
        none true now).access_logs.length <
        (MemoryAccessManager.log_access amF d 0 "revoke_all_sessions"
          none true now).max_log_entries := by
      rw [hl1, log_access_max, hmax]
      simp only [List.length_append, List.length_cons, List.length_nil, hlenF]
      omega
    have hl2 := log_access_logs
      (MemoryAccessManager.log_access amF d 0 "revoke_all_sessions" none true now)
      d 0 "logout" none true now hc2
    constructor
    · simp [MedicalSecuritySystem.logout_doctor, h1]
    · simp [MedicalSecuritySystem.logout_doctor, h1, hra, hl2, hl1, hlogs]
  · -- logout of an uncached doctor
    intro sys d now h
    simp [MedicalSecuritySystem.logout_doctor, h]
  · -- session creation
    intro sys d p accessType dh rh fk now hcap
    simp [MedicalSecuritySystem.create_access_session,
      MemoryAccessManager.create_session, log_access_logs, hcap]
  · -- first revocation
    intro am sid s now hget hact hcap
    constructor
    · simp [MemoryAccessManager.revoke_session, hget, hact]
    · simp [MemoryAccessManager.revoke_session, hget, hact, log_access_logs, hcap]
  · -- repeated revocation
    intro am sid s now hget hact
    simp [MemoryAccessManager.revoke_session, hget, hact]
  · -- encryption with a cached patient key
    intro P J codec sys d p pt ad nonce fkb fs ts rp now hk hcap
    obtain ⟨k, hk2⟩ := Option.isSome_iff_exists.mp hk
    cases he : sys.prov.encrypt P pt k ad nonce with
    | ok b =>
      exact ⟨⟨now, d, p, "encrypt_data", none, true⟩,
        by simp [MedicalSecuritySystem.encrypt_patient_data, hk2, he,
          log_access_logs, hcap],
        rfl,
        by simp [MedicalSecuritySystem.encrypt_patient_data, hk2, he, Except.isOk, Except.toBool]⟩
    | error err =>
      exact ⟨⟨now, d, p, "encrypt_data", none, false⟩,
        by simp [MedicalSecuritySystem.encrypt_patient_data, hk2, he,
          log_access_logs, hcap],
        rfl,
        by simp [MedicalSecuritySystem.encrypt_patient_data, hk2, he, Except.isOk, Except.toBool]⟩
  · -- decryption with a cached patient key
    intro P J codec sys d p j now hk hcap
    obtain ⟨k, hk2⟩ := Option.isSome_iff_exists.mp hk
    cases hj : codec.fromJson j with
    | none =>
      exact ⟨⟨now, d, p, "decrypt_data", none, false⟩,
        by simp [MedicalSecuritySystem.decrypt_patient_data,
          MedicalSecuritySystem.check_doctor_access, hk2, hj, log_access_logs, hcap],
        rfl,
        by simp [MedicalSecuritySystem.decrypt_patient_data,
          MedicalSecuritySystem.check_doctor_access, hk2, hj, Except.isOk, Except.toBool]⟩
    | some blob =>
      cases hd : AESCryptoProvider.decrypt P blob k with
      | ok pt =>
        exact ⟨⟨now, d, p, "decrypt_data", none, true⟩,
          by simp [MedicalSecuritySystem.decrypt_patient_data,
            MedicalSecuritySystem.check_doctor_access, hk2, hj, hd,
            log_access_logs, hcap],
          rfl,
          by simp [MedicalSecuritySystem.decrypt_patient_data,
            MedicalSecuritySystem.check_doctor_access, hk2, hj, hd, Except.isOk, Except.toBool]⟩
      | error e =>
        exact ⟨⟨now, d, p, "decrypt_data", none, false⟩,
          by simp [MedicalSecuritySystem.decrypt_patient_data,
            MedicalSecuritySystem.check_doctor_access, hk2, hj, hd,
            log_access_logs, hcap],
          rfl,
          by simp [MedicalSecuritySystem.decrypt_patient_data,
            MedicalSecuritySystem.check_doctor_access, hk2, hj, hd, Except.isOk, Except.toBool]⟩
  · -- rotation with a cached master key
    intro sys d p fkb fs ts rp now hk hcap
    obtain ⟨mk0, hk2⟩ := Option.isSome_iff_exists.mp hk
    cases hr : sys.km.rotate_data_key p mk0 fkb fs ts rp now with
    | ok pr =>
      obtain ⟨nk, km1⟩ := pr
      exact ⟨⟨now, d, p, "rotate_key", none, true⟩,
        by simp [MedicalSecuritySystem.rotate_patient_key, hk2, hr,
          log_access_logs, hcap],
        rfl,
        by simp [MedicalSecuritySystem.rotate_patient_key, hk2, hr, Except.isOk,
          Except.toBool]⟩
    | error e =>
      exact ⟨⟨now, d, p, "rotate_key", none, false⟩,
        by simp [MedicalSecuritySystem.rotate_patient_key, hk2, hr,
          log_access_logs, hcap],
        rfl,
        by simp [MedicalSecuritySystem.rotate_patient_key, hk2, hr, Except.isOk,
          Except.toBool]⟩

/-- The seed system with a session: after `setup_doctor(1, ...)` and
`create_access_session(1, 5, view)`, so that logging out doctor 1
revokes one active session. -/
def sc1s : MedicalSecuritySystem :=
  (sc1.create_access_session 1 5 "view" 8 "rh" [] 40).2

def c5SessionActive : AccessSession :=
  { session_id := "t1", doctor_id := 3, patient_id := 7,
    encrypted_session_key := [], access_type := "view",
    permissions := [("read", true)], created_at := 0, expires_at := 100 }

def c5AmA : MemoryAccessManager :=
  { sessions := [("t1", c5SessionActive)], access_logs := [],
    default_session_hours := 8, max_log_entries := 100 }

def c5SessionInactive : AccessSession :=
  { c5SessionActive with session_id := "t2", is_active := false }

def c5AmI : MemoryAccessManager :=
  { sessions := [("t2", c5SessionInactive)], access_logs := [],
    default_session_hours := 8, max_log_entries := 100 }

theorem C5_witness :
    (∃ e : LogEntry,
      (sc0.login_doctor toyPrims 1 "pw" [7] 0).2.am.access_logs =
        sc0.am.access_logs ++ [e] ∧
      e.action = "login" ∧
      e.success = (sc0.login_doctor toyPrims 1 "pw" [7] 0).1) ∧
    ((sc1s.logout_doctor 1 50).1 = true ∧
      (sc1s.logout_doctor 1 50).2.am.access_logs = sc1s.am.access_logs ++
        (sc1s.am.sessions.filter
          (fun pr => pr.2.doctor_id == 1 && pr.2.is_active)).map
          (fun pr =>
            (⟨50, pr.2.doctor_id, pr.2.patient_id, "revoke_session", none,
              true⟩ : LogEntry)) ++
        [⟨50, 1, 0, "revoke_all_sessions", none, true⟩,
         ⟨50, 1, 0, "logout", none, true⟩]) ∧
    (sc0.logout_doctor 2 0 = (false, sc0)) ∧
    ((sc0.create_access_session 1 5 "view" 8 "rh" [] 0).2.am.access_logs =
      sc0.am.access_logs ++ [⟨0, 1, 5, "create_session", none, true⟩]) ∧
    ((c5AmA.revoke_session "t1" 3).1 = true ∧
      (c5AmA.revoke_session "t1" 3).2.access_logs = c5AmA.access_logs ++
        [⟨3, c5SessionActive.doctor_id, c5SessionActive.patient_id,
          "revoke_session", none, true⟩]) ∧
    (c5AmI.revoke_session "t2" 3 = (false, c5AmI)) ∧
    (∃ e : LogEntry,
      (sc2.encrypt_patient_data toyPrims idCodec 1 5 "m" none
        (List.replicate 12 4) [] [] 0 "x" 20).2.am.access_logs =
          sc2.am.access_logs ++ [e] ∧
      e.action = "encrypt_data" ∧
      e.success = (sc2.encrypt_patient_data toyPrims idCodec 1 5 "m" none
        (List.replicate 12 4) [] [] 0 "x" 20).1.isOk) ∧
    (∃ e : LogEntry,
      (sc3.decrypt_patient_data toyPrims idCodec 1 5 scBlob 25).2.am.access_logs =
        sc3.am.access_logs ++ [e] ∧
      e.action = "decrypt_data" ∧
      e.success = (sc3.decrypt_patient_data toyPrims idCodec 1 5 scBlob 25).1.isOk) ∧
    (∃ e : LogEntry,
      (sc3.rotate_patient_key 1 5 (List.replicate 32 5) (List.replicate 32 6)
        30 "r2" 30).2.am.access_logs = sc3.am.access_logs ++ [e] ∧
      e.action = "rotate_key" ∧
      e.success = (sc3.rotate_patient_key 1 5 (List.replicate 32 5)
        (List.replicate 32 6) 30 "r2" 30).1.isOk) :=
  ⟨C5_audit_event_discipline.1 toyPrims sc0 1 "pw" [7] 0 (by decide),
   C5_audit_event_discipline.2.1 sc1s 1 50 (by decide) (by decide) (by decide),
   C5_audit_event_discipline.2.2.1 sc0 2 0 (by decide),
   C5_audit_event_discipline.2.2.2.1 sc0 1 5 "view" 8 "rh" [] 0 (by decide),
   C5_audit_event_discipline.2.2.2.2.1 c5AmA "t1" c5SessionActive 3
     (by decide) (by decide) (by decide),
   C5_audit_event_discipline.2.2.2.2.2.1 c5AmI "t2" c5SessionInactive 3
     (by decide) (by decide),
   C5_audit_event_discipline.2.2.2.2.2.2.1 toyPrims EncryptedData idCodec sc2
     1 5 "m" none (List.replicate 12 4) [] [] 0 "x" 20 (by decide) (by decide),
   C5_audit_event_discipline.2.2.2.2.2.2.2.1 toyPrims EncryptedData idCodec sc3
     1 5 scBlob 25 (by decide) (by decide),
   C5_audit_event_discipline.2.2.2.2.2.2.2.2 sc3 1 5 (List.replicate 32 5)
     (List.replicate 32 6) 30 "r2" 30 (by decide) (by decide)⟩

end MedDiary
